import Mathlib

/-!
Shallow embedding of the colour value-object library (`src/src/index.ts`):
the classes `ColourRGB` and `ColourHSL`, the helpers `padHex` and
`isBadNum`, and the hex parser `parseHexColour`.

JavaScript numbers are modelled as `JSNum`: either `NaN` or an exact
rational.  Every finite double is a dyadic rational, so the rationals cover
all finite values the code can hold; `NaN` is kept as a separate
constructor because the validation rule `isBadNum` lets it through.
JavaScript's default number-to-string conversion is modelled as the
shortest terminating positional expansion (which agrees with JavaScript on
the integers and simple decimals the library deals in), and
`Number.prototype.toString(16)` likewise in base 16, with `NaN` rendering
as the string `NaN` in both.
-/

set_option maxRecDepth 8192

namespace Colour

/-- Decidable equality for `Except`, used to evaluate the embedding on
concrete inputs. -/
instance {ε α : Type} [DecidableEq ε] [DecidableEq α] : DecidableEq (Except ε α) :=
  fun x y =>
    match x, y with
    | .ok a, .ok b =>
      if h : a = b then .isTrue (by rw [h]) else .isFalse (by simp [h])
    | .error e, .error f =>
      if h : e = f then .isTrue (by rw [h]) else .isFalse (by simp [h])
    | .ok _, .error _ => .isFalse (by simp)
    | .error _, .ok _ => .isFalse (by simp)

/-- A JavaScript number as used by the library: `NaN` or a finite value,
the latter modelled as an exact rational. -/
inductive JSNum where
  | nan : JSNum
  | num : ℚ → JSNum
deriving DecidableEq, Repr

/-- A JavaScript value that can reach the variadic `ColourRGB` constructor:
a string, a number, or `undefined` (the destructured missing 4th argument). -/
inductive JSVal where
  | str : String → JSVal
  | num : JSNum → JSVal
  | undef : JSVal
deriving DecidableEq, Repr

/-- JavaScript falsiness on the values of `JSVal`: `undefined`, `NaN`, `0`
and the empty string are falsy. -/
def jsFalsy : JSVal → Bool
  | .undef => true
  | .num .nan => true
  | .num (.num q) => q = 0
  | .str s => s = ""

/-- JavaScript `a || b` on the values of `JSVal`. -/
def jsOr (a b : JSVal) : JSVal := if jsFalsy a then b else a

/-- JavaScript strict equality on numbers: `NaN` is equal to nothing,
finite values compare as rationals. -/
def jsEq : JSNum → JSNum → Bool
  | .num p, .num q => p = q
  | _, _ => false

/-- Source `isBadNum`: `typeof num !== 'number' || num < 0 || num > max`.
A non-number is bad; `NaN` is a number and both comparisons on it are
false, so it passes. -/
def isBadNum (v : JSVal) (max : ℚ) : Bool :=
  match v with
  | .num .nan => false
  | .num (.num q) => decide (q < 0) || decide (q > max)
  | _ => true

/-- Lowercase base-16 digit string of a natural number, as
`Number.prototype.toString(16)` renders a non-negative integer. -/
def natToHex (n : ℕ) : String := ⟨Nat.toDigits 16 n⟩

/-- Left-pad a digit string with zeros to the given length. -/
def zeroPad (t : ℕ) (s : String) : String :=
  ⟨List.replicate (t - s.length) '0'⟩ ++ s

/-- Least number of digits after the point in a terminating positional
expansion of a fraction with denominator `d` in the given base: the least
`t` with `t ≥ 1` and `d` dividing `base ^ t`, searched up to 1200 (every
double is a dyadic rational, whose expansion terminates well within
that). -/
def minFracDigits (base d : ℕ) : Option ℕ :=
  ((List.range 1200).find? fun k => decide (base ^ (k + 1) % d = 0)).map (· + 1)

/-- Positional rendering of the non-negative fraction `n / d` (in lowest
terms, `d ≥ 1`) in the given base: just the integer digits when `d = 1`,
otherwise integer part, point, and the fewest fraction digits that
terminate.  The fallback branch is unreachable for the dyadic fractions
doubles hold. -/
def posStr (base : ℕ) (digits : ℕ → String) (n d : ℕ) : String :=
  if d = 1 then digits n
  else
    match minFracDigits base d with
    | some t =>
      let m := n * base ^ t / d
      digits (m / base ^ t) ++ "." ++ zeroPad t (digits (m % base ^ t))
    | none => digits n ++ "/" ++ digits d

/-- Model of JavaScript's default number-to-string conversion as used in
template literals: `NaN` renders as the string `NaN`, finite values as
their shortest terminating decimal expansion, with a leading minus sign
when negative. -/
def numToString : JSNum → String
  | .nan => "NaN"
  | .num q =>
    if q < 0 then "-" ++ posStr 10 Nat.repr q.num.natAbs q.den
    else posStr 10 Nat.repr q.num.toNat q.den

/-- Model of `num.toString(16)`: the string `NaN` for `NaN`, lowercase
base-16 digits for finite values. -/
def jsToString16 : JSNum → String
  | .nan => "NaN"
  | .num q =>
    if q < 0 then "-" ++ posStr 16 natToHex q.num.natAbs q.den
    else posStr 16 natToHex q.num.toNat q.den

/-- Source `padHex`: prepend two zeros to `num.toString(16)` and keep the
last two characters (`substr(-2)`). -/
def padHex (n : JSNum) : String :=
  let s := "00" ++ jsToString16 n
  s.drop (s.length - 2)

/-- The characters matched by the regex class `[a-f0-9]` under the
case-insensitive flag. -/
def hexDigits : List Char := "0123456789abcdefABCDEF".data

/-- Membership in the regex class `[a-f0-9]` with the `i` flag. -/
def isHexDigit (c : Char) : Bool := hexDigits.contains c

/-- Numeric value of one hex digit, as `parseInt(-, 16)` reads it
(case-insensitive). -/
def hexDigitVal (c : Char) : ℕ :=
  if '0' ≤ c ∧ c ≤ '9' then c.toNat - '0'.toNat
  else if 'a' ≤ c ∧ c ≤ 'f' then c.toNat - 'a'.toNat + 10
  else if 'A' ≤ c ∧ c ≤ 'F' then c.toNat - 'A'.toNat + 10
  else 0

/-- `parseInt(s, 16)` on the all-hex-digit strings the parser feeds it. -/
def parseInt16 (s : String) : ℕ :=
  s.data.foldl (fun acc c => 16 * acc + hexDigitVal c) 0

/-- The two failure kinds of the library: the catch-all
`Invalid ColourRGB/ColourHSL arguments` error and the
`Invalid hex colour` error.  The error message strings are elided. -/
inductive ColourError where
  | invalidColourArguments : ColourError
  | invalidHexColour : ColourError
deriving DecidableEq, Repr

/-- The record `{r, g, b, a}` returned by `parseHexColour`. -/
structure HexRGBA where
  r : JSNum
  g : JSNum
  b : JSNum
  a : JSNum
deriving DecidableEq, Repr

/-- The regex `^#([a-f0-9])([a-f0-9])([a-f0-9])$` with flag `i`: anchored,
a literal hash, then exactly three hex digits, returned as the three
capture groups. -/
def matchHex3 (s : String) : Option (Char × Char × Char) :=
  match s.data with
  | ['#', c1, c2, c3] =>
    if isHexDigit c1 && isHexDigit c2 && isHexDigit c3 then some (c1, c2, c3)
    else none
  | _ => none

/-- The regex `^#([a-f0-9]\x7b2\x7d)([a-f0-9]\x7b2\x7d)([a-f0-9]\x7b2\x7d)$`
with flag `i`: anchored, a literal hash, then exactly six hex digits,
returned pairwise as the three capture groups. -/
def matchHex6 (s : String) : Option (Char × Char × Char × Char × Char × Char) :=
  match s.data with
  | ['#', c1, c2, c3, c4, c5, c6] =>
    if isHexDigit c1 && isHexDigit c2 && isHexDigit c3 && isHexDigit c4 &&
        isHexDigit c5 && isHexDigit c6 then
      some (c1, c2, c3, c4, c5, c6)
    else none
  | _ => none

/-- Source `parseHexColour`: try the 3-digit pattern, duplicating each
captured digit before parsing base-16; otherwise try the 6-digit pattern,
parsing each captured pair base-16; otherwise throw `Invalid hex colour`.
Alpha is 1 in both success cases. -/
def parseHexColour (hex : String) : Except ColourError HexRGBA :=
  match matchHex3 hex with
  | some (c1, c2, c3) =>
    .ok ⟨.num (parseInt16 ⟨[c1, c1]⟩ : ℚ), .num (parseInt16 ⟨[c2, c2]⟩ : ℚ),
         .num (parseInt16 ⟨[c3, c3]⟩ : ℚ), .num 1⟩
  | none =>
    match matchHex6 hex with
    | some (c1, c2, c3, c4, c5, c6) =>
      .ok ⟨.num (parseInt16 ⟨[c1, c2]⟩ : ℚ), .num (parseInt16 ⟨[c3, c4]⟩ : ℚ),
           .num (parseInt16 ⟨[c5, c6]⟩ : ℚ), .num 1⟩
    | none => .error .invalidHexColour

/-- An instance of the class `ColourRGB`: the four private number fields. -/
structure ColourRGB where
  r : JSNum
  g : JSNum
  b : JSNum
  a : JSNum
deriving DecidableEq, Repr

/-- JavaScript `s.charAt(0) === '#'` (on the empty string `charAt` yields
the empty string, which is not the hash character). -/
def firstIsHash (s : String) : Bool :=
  match s.data with
  | c :: _ => c = '#'
  | [] => false

/-- The `ColourRGB` constructor.  One string argument starting with a hash
goes through `parseHexColour`; three or four arguments are destructured
with `a || 1` supplying alpha; any other shape throws.  The four assigned
fields are then validated with `isBadNum` (255 for r, g, b and 1 for a),
throwing the same arguments error on failure.  The final match extracting
the numbers cannot fail: validation has rejected every non-number. -/
def constructRGB (args : List JSVal) : Except ColourError ColourRGB :=
  let fields : Except ColourError (JSVal × JSVal × JSVal × JSVal) :=
    match args with
    | [.str s] =>
      if firstIsHash s then
        (parseHexColour s).map fun h => (.num h.r, .num h.g, .num h.b, .num h.a)
      else .error .invalidColourArguments
    | [r, g, b] => .ok (r, g, b, jsOr .undef (.num (.num 1)))
    | [r, g, b, a] => .ok (r, g, b, jsOr a (.num (.num 1)))
    | _ => .error .invalidColourArguments
  match fields with
  | .error e => .error e
  | .ok (r, g, b, a) =>
    if isBadNum r 255 || isBadNum g 255 || isBadNum b 255 || isBadNum a 1 then
      .error .invalidColourArguments
    else
      match r, g, b, a with
      | .num rn, .num gn, .num bn, .num an => .ok ⟨rn, gn, bn, an⟩
      | _, _, _, _ => .error .invalidColourArguments

/-- `ColourRGB.prototype.alpha`: construct a new instance from the
receiver's r, g, b and the given alpha. -/
def ColourRGB.alpha (c : ColourRGB) (newAlpha : JSNum) : Except ColourError ColourRGB :=
  constructRGB [.num c.r, .num c.g, .num c.b, .num newAlpha]

/-- `ColourRGB.prototype.toString`: the hash-prefixed hex form when the
alpha field is strictly equal to 1, otherwise the `rgba` form. -/
def ColourRGB.toString (c : ColourRGB) : String :=
  if jsEq c.a (.num 1) then
    "#" ++ padHex c.r ++ padHex c.g ++ padHex c.b
  else
    "rgba(" ++ numToString c.r ++ ", " ++ numToString c.g ++ ", " ++
      numToString c.b ++ ", " ++ numToString c.a ++ ")"

/-- An instance of the class `ColourHSL`: the four private number fields. -/
structure ColourHSL where
  h : JSNum
  s : JSNum
  l : JSNum
  a : JSNum
deriving DecidableEq, Repr

/-- The `ColourHSL` constructor: `a = 1` is a true default parameter
(`none` models the omitted argument), the four fields are assigned and then
validated with `isBadNum` (360 for h, 100 for s and l, 1 for a). -/
def constructHSL (h s l : JSNum) (a : Option JSNum) : Except ColourError ColourHSL :=
  if isBadNum (.num h) 360 || isBadNum (.num s) 100 || isBadNum (.num l) 100 ||
      isBadNum (.num (a.getD (.num 1))) 1 then
    .error .invalidColourArguments
  else
    .ok ⟨h, s, l, a.getD (.num 1)⟩

/-- `ColourHSL.prototype.alpha`: construct a new instance from the
receiver's h, s, l and the given alpha. -/
def ColourHSL.alpha (c : ColourHSL) (newAlpha : JSNum) : Except ColourError ColourHSL :=
  constructHSL c.h c.s c.l (some newAlpha)

/-- `ColourHSL.prototype.toString`: the `hsl` form when the alpha field is
strictly equal to 1, otherwise the `hsla` form. -/
def ColourHSL.toString (c : ColourHSL) : String :=
  if jsEq c.a (.num 1) then
    "hsl(" ++ numToString c.h ++ ", " ++ numToString c.s ++ "%, " ++
      numToString c.l ++ "%)"
  else
    "hsla(" ++ numToString c.h ++ ", " ++ numToString c.s ++ "%, " ++
      numToString c.l ++ "%, " ++ numToString c.a ++ ")"

/-- Whether `pat` occurs as a contiguous substring of `s`. -/
def strContains (s pat : String) : Bool :=
  (List.range (s.length + 1)).any fun i => pat.data.isPrefixOf (s.data.drop i)

/-- Spec-side form: two-digit zero-padded lowercase hex rendering of a
channel value, as the spec describes the hex branch of `toString`. -/
def hex2 (n : ℕ) : String := ⟨[Nat.digitChar (n / 16), Nat.digitChar (n % 16)]⟩

/-- Spec-side form: the canonical lowercase expansion of one 3-digit hex
capture group, the digit lowercased and duplicated. -/
def lowerPair (c : Char) : String := ⟨[c.toLower, c.toLower]⟩

/-- Spec-side form: one 6-digit hex capture group lowercased. -/
def lowerTwo (c1 c2 : Char) : String := ⟨[c1.toLower, c2.toLower]⟩

/-! Helper lemmas. -/

theorem isHexDigit_iff_mem (c : Char) : isHexDigit c = true ↔ c ∈ hexDigits := by
  simp [isHexDigit, List.contains]

theorem isBadNum_num_eq (q m : ℚ) :
    isBadNum (.num (.num q)) m = (decide (q < 0) || decide (q > m)) := rfl

theorem isBadNum_eq_false (q m : ℚ) (h0 : 0 ≤ q) (h1 : q ≤ m) :
    isBadNum (.num (.num q)) m = false := by
  simp only [isBadNum_num_eq, Bool.or_eq_false_iff, decide_eq_false_iff_not, not_lt]
  exact ⟨h0, h1⟩

theorem isBadNum_natCast (n : ℕ) (h : n ≤ 255) :
    isBadNum (.num (.num (n : ℚ))) 255 = false :=
  isBadNum_eq_false _ _ (by positivity) (by exact_mod_cast h)

theorem jsFalsy_num (q : ℚ) : jsFalsy (.num (.num q)) = decide (q = 0) := rfl

theorem jsOr_one (a : JSNum) :
    jsOr (.num a) (.num (.num 1)) =
      .num (if jsFalsy (JSVal.num a) then JSNum.num 1 else a) := by
  by_cases hf : jsFalsy (JSVal.num a) <;> simp [jsOr, hf]

theorem constructRGB_four (r g b a : JSNum) :
    constructRGB [.num r, .num g, .num b, .num a] =
      if isBadNum (.num r) 255 || isBadNum (.num g) 255 || isBadNum (.num b) 255 ||
          isBadNum (.num (if jsFalsy (JSVal.num a) then JSNum.num 1 else a)) 1 then
        .error .invalidColourArguments
      else .ok ⟨r, g, b, if jsFalsy (JSVal.num a) then JSNum.num 1 else a⟩ := by
  by_cases hf : jsFalsy (JSVal.num a) <;>
    simp only [constructRGB, jsOr, hf, if_true, if_false, Bool.false_eq_true]

theorem constructRGB_three (r g b : JSNum) :
    constructRGB [.num r, .num g, .num b] =
      if isBadNum (.num r) 255 || isBadNum (.num g) 255 || isBadNum (.num b) 255 then
        .error .invalidColourArguments
      else .ok ⟨r, g, b, .num 1⟩ := by
  have hone : isBadNum (.num (.num 1)) 1 = false := by decide
  simp only [constructRGB, jsOr, jsFalsy, if_true, hone, Bool.or_false]

theorem hexDigitVal_lt : ∀ c ∈ hexDigits, hexDigitVal c < 16 := by decide

theorem parseInt16_two (c1 c2 : Char) :
    parseInt16 ⟨[c1, c2]⟩ = 16 * hexDigitVal c1 + hexDigitVal c2 := by
  simp [parseInt16]

theorem parseInt16_dup_le : ∀ c ∈ hexDigits, parseInt16 ⟨[c, c]⟩ ≤ 255 := by decide

theorem parseInt16_pair_le :
    ∀ c1 ∈ hexDigits, ∀ c2 ∈ hexDigits, parseInt16 ⟨[c1, c2]⟩ ≤ 255 := by decide

theorem padHex_natCast : ∀ n : ℕ, n < 256 → padHex (.num (n : ℚ)) = hex2 n := by decide

theorem padHex_dup :
    ∀ c ∈ hexDigits, padHex (.num (parseInt16 ⟨[c, c]⟩ : ℚ)) = lowerPair c := by decide

theorem padHex_pair :
    ∀ c1 ∈ hexDigits, ∀ c2 ∈ hexDigits,
      padHex (.num (parseInt16 ⟨[c1, c2]⟩ : ℚ)) = lowerTwo c1 c2 := by decide

theorem numToString_natCast (n : ℕ) : numToString (.num (n : ℚ)) = Nat.repr n := by
  have hden : ((n : ℚ)).den = 1 := Rat.den_natCast n
  have hnum : ((n : ℚ)).num = (n : ℤ) := Rat.num_natCast n
  have hneg : ¬ ((n : ℚ) < 0) := not_lt.mpr (by positivity)
  simp [numToString, posStr, hden, hnum, hneg]

theorem parseHexColour_three (c1 c2 c3 : Char)
    (h1 : isHexDigit c1 = true) (h2 : isHexDigit c2 = true) (h3 : isHexDigit c3 = true) :
    parseHexColour ⟨['#', c1, c2, c3]⟩ =
      .ok ⟨.num (parseInt16 ⟨[c1, c1]⟩ : ℚ), .num (parseInt16 ⟨[c2, c2]⟩ : ℚ),
           .num (parseInt16 ⟨[c3, c3]⟩ : ℚ), .num 1⟩ := by
  simp [parseHexColour, matchHex3, h1, h2, h3]

theorem parseHexColour_six (c1 c2 c3 c4 c5 c6 : Char)
    (h1 : isHexDigit c1 = true) (h2 : isHexDigit c2 = true) (h3 : isHexDigit c3 = true)
    (h4 : isHexDigit c4 = true) (h5 : isHexDigit c5 = true) (h6 : isHexDigit c6 = true) :
    parseHexColour ⟨['#', c1, c2, c3, c4, c5, c6]⟩ =
      .ok ⟨.num (parseInt16 ⟨[c1, c2]⟩ : ℚ), .num (parseInt16 ⟨[c3, c4]⟩ : ℚ),
           .num (parseInt16 ⟨[c5, c6]⟩ : ℚ), .num 1⟩ := by
  simp [parseHexColour, matchHex3, matchHex6, h1, h2, h3, h4, h5, h6]

theorem constructRGB_four_ok (r g b a : JSNum) (c : ColourRGB)
    (hc : constructRGB [.num r, .num g, .num b, .num a] = .ok c) :
    c = ⟨r, g, b, if jsFalsy (JSVal.num a) then JSNum.num 1 else a⟩ := by
  rw [constructRGB_four] at hc
  by_cases hf : jsFalsy (JSVal.num a) <;>
    simp only [hf, if_true, if_false, Bool.false_eq_true] at hc ⊢ <;>
    split at hc <;>
    first
      | exact (Except.ok.inj hc).symm
      | exact Except.noConfusion hc

theorem constructRGB_ok_of_good (r g b a : JSNum)
    (hr : isBadNum (.num r) 255 = false) (hg : isBadNum (.num g) 255 = false)
    (hb : isBadNum (.num b) 255 = false)
    (ha : isBadNum (.num (if jsFalsy (JSVal.num a) then JSNum.num 1 else a)) 1 = false) :
    constructRGB [.num r, .num g, .num b, .num a] =
      .ok ⟨r, g, b, if jsFalsy (JSVal.num a) then JSNum.num 1 else a⟩ := by
  rw [constructRGB_four]
  simp [hr, hg, hb, ha]

theorem constructHSL_ok (h s l : JSNum) (a : Option JSNum) (c : ColourHSL)
    (hc : constructHSL h s l a = .ok c) : c = ⟨h, s, l, a.getD (.num 1)⟩ := by
  unfold constructHSL at hc
  split at hc
  · exact absurd hc (by simp)
  · cases hc; rfl

/-! The claims. -/

/-- C2: in the numeric `ColourRGB` constructor the alpha argument defaults
to 1 when it is omitted or falsy; in particular, whenever construction with
an explicit alpha of 0 succeeds, the instance's alpha field is 1, not 0
(and likewise for an omitted alpha and for `NaN`, the other falsy
number). -/
theorem claim2_alpha_default (r g b : JSNum) :
    (∀ c : ColourRGB,
      constructRGB [.num r, .num g, .num b, .num (.num 0)] = .ok c → c.a = .num 1) ∧
    (∀ c : ColourRGB,
      constructRGB [.num r, .num g, .num b] = .ok c → c.a = .num 1) ∧
    (∀ c : ColourRGB,
      constructRGB [.num r, .num g, .num b, .num .nan] = .ok c → c.a = .num 1) := by
  refine ⟨?_, ?_, ?_⟩ <;> intro c hc
  · rw [constructRGB_four_ok r g b (.num 0) c hc]
    simp [jsFalsy]
  · rw [constructRGB_three] at hc
    split at hc
    · exact Except.noConfusion hc
    · rw [← Except.ok.inj hc]
  · rw [constructRGB_four_ok r g b .nan c hc]
    simp [jsFalsy]

/-- C2 witness: `ColourRGB(0, 0, 0, 0)` succeeds and its alpha field is
1. -/
theorem claim2_witness :
    ColourRGB.a ⟨.num 0, .num 0, .num 0, .num 1⟩ = .num 1 :=
  (claim2_alpha_default (.num 0) (.num 0) (.num 0)).1
    ⟨.num 0, .num 0, .num 0, .num 1⟩ (by decide)

/-- C5: a string that starts with a hash but matches neither the anchored
3-digit nor the anchored 6-digit hex pattern makes `parseHexColour`, and
hence single-string `ColourRGB` construction, fail with the invalid hex
colour error. -/
theorem claim5_invalid_hex (s : String) (hh : firstIsHash s = true)
    (h3 : matchHex3 s = none) (h6 : matchHex6 s = none) :
    parseHexColour s = .error .invalidHexColour ∧
    constructRGB [.str s] = .error .invalidHexColour := by
  have hp : parseHexColour s = .error .invalidHexColour := by
    simp [parseHexColour, h3, h6]
  exact ⟨hp, by simp [constructRGB, hh, hp, Except.map]⟩

/-- C5 witness: `ColourRGB('#xyz')` fails with the invalid hex colour
error. -/
theorem claim5_witness :
    parseHexColour "#xyz" = .error .invalidHexColour ∧
    constructRGB [.str "#xyz"] = .error .invalidHexColour :=
  claim5_invalid_hex "#xyz" (by decide) (by decide) (by decide)

/-- C8: the `ColourHSL` constructor has a true default parameter for
alpha, so an explicitly supplied alpha — 0 included — is stored unchanged;
`toString` yields the `hsl` form exactly when the alpha is strictly equal
to 1 and the `hsla` form otherwise; in particular `HSLColour(0,100,50)`
prints `hsl(0, 100%, 50%)` and `HSLColour(0,100,50,0)` prints
`hsla(0, 100%, 50%, 0)`. -/
theorem claim8_hsl_behaviour (h s l a : JSNum) :
    (∀ c : ColourHSL, constructHSL h s l (some a) = .ok c → c.a = a) ∧
    (∀ c : ColourHSL, constructHSL h s l (some a) = .ok c →
      c.toString =
        if jsEq a (.num 1) then
          "hsl(" ++ numToString h ++ ", " ++ numToString s ++ "%, " ++
            numToString l ++ "%)"
        else
          "hsla(" ++ numToString h ++ ", " ++ numToString s ++ "%, " ++
            numToString l ++ "%, " ++ numToString a ++ ")") ∧
    (constructHSL (.num 0) (.num 100) (.num 50) none).map ColourHSL.toString =
      .ok "hsl(0, 100%, 50%)" ∧
    (constructHSL (.num 0) (.num 100) (.num 50) (some (.num 0))).map ColourHSL.toString =
      .ok "hsla(0, 100%, 50%, 0)" := by
  refine ⟨?_, ?_, by decide, by decide⟩ <;> intro c hc <;>
    rw [constructHSL_ok h s l (some a) c hc] <;> rfl

/-- C8 witness: `HSLColour(0, 100, 50, 0)` keeps its explicit alpha of
0. -/
theorem claim8_witness :
    ColourHSL.a ⟨.num 0, .num 100, .num 50, .num 0⟩ = .num 0 :=
  (claim8_hsl_behaviour (.num 0) (.num 100) (.num 50) (.num 0)).1
    ⟨.num 0, .num 100, .num 50, .num 0⟩ (by decide)

/-- C9: `alpha` on either class builds its result from the receiver's
colour channels, so whenever it succeeds the new instance carries r, g, b
(respectively h, s, l) unchanged; the receiver itself is a value that the
call cannot mutate. -/
theorem claim9_alpha_preserves_channels (c : ColourRGB) (d : ColourHSL) (na : JSNum) :
    (∀ c' : ColourRGB, c.alpha na = .ok c' →
      c'.r = c.r ∧ c'.g = c.g ∧ c'.b = c.b) ∧
    (∀ d' : ColourHSL, d.alpha na = .ok d' →
      d'.h = d.h ∧ d'.s = d.s ∧ d'.l = d.l) := by
  constructor <;> intro x hx
  · rw [constructRGB_four_ok c.r c.g c.b na x hx]
    exact ⟨rfl, rfl, rfl⟩
  · rw [constructHSL_ok d.h d.s d.l (some na) x hx]
    exact ⟨rfl, rfl, rfl⟩

/-- C9 witness: lowering the alpha of an opaque black RGB instance and of
an HSL instance leaves their colour channels unchanged. -/
theorem claim9_witness :
    (ColourRGB.r ⟨.num 0, .num 0, .num 0, .num (mkRat 1 2)⟩ =
        ColourRGB.r ⟨.num 0, .num 0, .num 0, .num 1⟩ ∧
      ColourRGB.g ⟨.num 0, .num 0, .num 0, .num (mkRat 1 2)⟩ =
        ColourRGB.g ⟨.num 0, .num 0, .num 0, .num 1⟩ ∧
      ColourRGB.b ⟨.num 0, .num 0, .num 0, .num (mkRat 1 2)⟩ =
        ColourRGB.b ⟨.num 0, .num 0, .num 0, .num 1⟩) :=
  (claim9_alpha_preserves_channels ⟨.num 0, .num 0, .num 0, .num 1⟩
    ⟨.num 0, .num 0, .num 0, .num 1⟩ (.num (mkRat 1 2))).1
    ⟨.num 0, .num 0, .num 0, .num (mkRat 1 2)⟩ (by decide)

/-- C10 (amended): `NaN` passes `isBadNum` for every channel, so
`RGBColour(NaN, 0, 0)` and `HSLColour(NaN, 0, 0)` both succeed; the HSL
string contains `NaN`, but the RGB string is the hex form and `padHex`
keeps only the last two characters of `00NaN`, so it prints `#aN0000`,
which does not contain `NaN`. -/
theorem claim10_nan_amended :
    constructRGB [.num .nan, .num (.num 0), .num (.num 0)] =
      .ok ⟨.nan, .num 0, .num 0, .num 1⟩ ∧
    ColourRGB.toString ⟨.nan, .num 0, .num 0, .num 1⟩ = "#aN0000" ∧
    strContains "#aN0000" "NaN" = false ∧
    constructHSL .nan (.num 0) (.num 0) none = .ok ⟨.nan, .num 0, .num 0, .num 1⟩ ∧
    ColourHSL.toString ⟨.nan, .num 0, .num 0, .num 1⟩ = "hsl(NaN, 0%, 0%)" ∧
    strContains "hsl(NaN, 0%, 0%)" "NaN" = true := by decide

/-- C10 counterexample: `RGBColour(NaN, 0, 0)` succeeds, but contrary to
the claim its `toString()` output, `#aN0000`, does not contain the
substring `NaN`. -/
theorem claim10_counterexample :
    (constructRGB [.num .nan, .num (.num 0), .num (.num 0)]).map ColourRGB.toString =
      .ok "#aN0000" ∧
    strContains "#aN0000" "NaN" = false := by decide

/-- C1 counterexample: at alpha 0 — which is in [0,1] and different from
1 — the pipeline `RGBColour(0,0,0,0).alpha(0).toString()` yields the hex
string `#000000`, not `rgba(0, 0, 0, 0)` as the claim requires for every
alpha different from 1. -/
theorem claim1_counterexample :
    ((constructRGB [.num (.num 0), .num (.num 0), .num (.num 0), .num (.num 0)]).bind
        (fun c => c.alpha (.num 0))).map ColourRGB.toString = .ok "#000000" ∧
    ((constructRGB [.num (.num 0), .num (.num 0), .num (.num 0), .num (.num 0)]).bind
        (fun c => c.alpha (.num 0))).map ColourRGB.toString ≠
      .ok "rgba(0, 0, 0, 0)" := by decide

theorem firstIsHash_cons (l : List Char) : firstIsHash ⟨'#' :: l⟩ = true := by
  simp [firstIsHash]

/-- C1 (amended): for r, g, b integers in [0,255] and alpha in [0,1],
`RGBColour(r,g,b,a).alpha(a).toString()` is the hex form when the alpha is
1 or 0 — an explicit 0 is collapsed to 1 by the falsy default — and the
string `rgba(r, g, b, a)` for every other alpha. -/
theorem claim1_alpha_roundtrip_amended (r g b : ℕ)
    (hr : r ≤ 255) (hg : g ≤ 255) (hb : b ≤ 255)
    (a : ℚ) (h0 : 0 ≤ a) (h1 : a ≤ 1) :
    ((constructRGB [.num (.num (r : ℚ)), .num (.num (g : ℚ)), .num (.num (b : ℚ)),
        .num (.num a)]).bind (fun c => c.alpha (.num a))).map ColourRGB.toString =
      .ok (if a = 0 ∨ a = 1 then "#" ++ hex2 r ++ hex2 g ++ hex2 b
           else "rgba(" ++ Nat.repr r ++ ", " ++ Nat.repr g ++ ", " ++ Nat.repr b ++
             ", " ++ numToString (.num a) ++ ")") := by
  have hbr := isBadNum_natCast r hr
  have hbg := isBadNum_natCast g hg
  have hbb := isBadNum_natCast b hb
  have hone : isBadNum (.num (.num 1)) 1 = false := by decide
  have hba : isBadNum (.num (.num a)) 1 = false := isBadNum_eq_false a 1 h0 h1
  have hex3 : ColourRGB.toString ⟨.num (r : ℚ), .num (g : ℚ), .num (b : ℚ), .num 1⟩ =
      "#" ++ hex2 r ++ hex2 g ++ hex2 b := by
    simp [ColourRGB.toString, jsEq, padHex_natCast r (by omega),
      padHex_natCast g (by omega), padHex_natCast b (by omega)]
  by_cases ha0 : a = 0
  · subst ha0
    have e1 : constructRGB [.num (.num (r : ℚ)), .num (.num (g : ℚ)), .num (.num (b : ℚ)),
        .num (.num 0)] = .ok ⟨.num r, .num g, .num b, .num 1⟩ := by
      rw [constructRGB_four]
      simp [jsFalsy, hbr, hbg, hbb, hone]
    have e2 : ColourRGB.alpha ⟨.num (r : ℚ), .num (g : ℚ), .num (b : ℚ), .num 1⟩
        (.num 0) = .ok ⟨.num r, .num g, .num b, .num 1⟩ := e1
    simp only [e1, Except.bind, e2, Except.map, hex3]
    simp
  · have hf : jsFalsy (JSVal.num (JSNum.num a)) = false := by simp [jsFalsy, ha0]
    have e1 : constructRGB [.num (.num (r : ℚ)), .num (.num (g : ℚ)), .num (.num (b : ℚ)),
        .num (.num a)] = .ok ⟨.num r, .num g, .num b, .num a⟩ := by
      rw [constructRGB_four]
      simp [hf, hbr, hbg, hbb, hba]
    have e2 : ColourRGB.alpha ⟨.num (r : ℚ), .num (g : ℚ), .num (b : ℚ), .num a⟩
        (.num a) = .ok ⟨.num r, .num g, .num b, .num a⟩ := e1
    by_cases ha1 : a = 1
    · subst ha1
      simp only [e1, Except.bind, e2, Except.map, hex3]
      simp
    · have hrgba : ColourRGB.toString ⟨.num (r : ℚ), .num (g : ℚ), .num (b : ℚ), .num a⟩ =
          "rgba(" ++ Nat.repr r ++ ", " ++ Nat.repr g ++ ", " ++ Nat.repr b ++
            ", " ++ numToString (.num a) ++ ")" := by
        simp [ColourRGB.toString, jsEq, ha1, numToString_natCast]
      simp only [e1, Except.bind, e2, Except.map, hrgba]
      simp [ha0, ha1]

/-- C1 witness: at r=255, g=0, b=0 and the non-collapsing alpha one half,
the pipeline produces the `rgba` form. -/
theorem claim1_witness :
    ((constructRGB [.num (.num ((255 : ℕ) : ℚ)), .num (.num ((0 : ℕ) : ℚ)),
        .num (.num ((0 : ℕ) : ℚ)), .num (.num (mkRat 1 2))]).bind
        (fun c => c.alpha (.num (mkRat 1 2)))).map ColourRGB.toString =
      .ok "rgba(255, 0, 0, 0.5)" :=
  (claim1_alpha_roundtrip_amended 255 0 0 (by decide) (by decide) (by decide)
    (mkRat 1 2) (by decide) (by decide)).trans (by decide)

/-- C3: parsing any anchored case-insensitive `#rgb` or `#rrggbb` hex
string through the single-string `ColourRGB` constructor and printing it
again round-trips to the canonical lowercase 6-digit form (each 3-digit
capture lowercased and duplicated, each 6-digit capture lowercased); in
particular `RGBColour('#0f0').toString()` is `#00ff00`. -/
theorem claim3_hex_roundtrip :
    (∀ c1 ∈ hexDigits, ∀ c2 ∈ hexDigits, ∀ c3 ∈ hexDigits,
      (constructRGB [.str ⟨['#', c1, c2, c3]⟩]).map ColourRGB.toString =
        .ok ("#" ++ lowerPair c1 ++ lowerPair c2 ++ lowerPair c3)) ∧
    (∀ c1 ∈ hexDigits, ∀ c2 ∈ hexDigits, ∀ c3 ∈ hexDigits, ∀ c4 ∈ hexDigits,
      ∀ c5 ∈ hexDigits, ∀ c6 ∈ hexDigits,
      (constructRGB [.str ⟨['#', c1, c2, c3, c4, c5, c6]⟩]).map ColourRGB.toString =
        .ok ("#" ++ lowerTwo c1 c2 ++ lowerTwo c3 c4 ++ lowerTwo c5 c6)) ∧
    (constructRGB [.str "#0f0"]).map ColourRGB.toString = .ok "#00ff00" := by
  have hone : isBadNum (.num (.num 1)) 1 = false := by decide
  refine ⟨?_, ?_, by decide⟩
  · intro c1 h1 c2 h2 c3 h3
    have hp := parseHexColour_three c1 c2 c3 ((isHexDigit_iff_mem c1).mpr h1)
      ((isHexDigit_iff_mem c2).mpr h2) ((isHexDigit_iff_mem c3).mpr h3)
    have e1 := isBadNum_natCast _ (parseInt16_dup_le c1 h1)
    have e2 := isBadNum_natCast _ (parseInt16_dup_le c2 h2)
    have e3 := isBadNum_natCast _ (parseInt16_dup_le c3 h3)
    simp [constructRGB, firstIsHash_cons, hp, e1, e2, e3, hone, Except.map,
      ColourRGB.toString, jsEq, padHex_dup c1 h1, padHex_dup c2 h2, padHex_dup c3 h3]
  · intro c1 h1 c2 h2 c3 h3 c4 h4 c5 h5 c6 h6
    have hp := parseHexColour_six c1 c2 c3 c4 c5 c6 ((isHexDigit_iff_mem c1).mpr h1)
      ((isHexDigit_iff_mem c2).mpr h2) ((isHexDigit_iff_mem c3).mpr h3)
      ((isHexDigit_iff_mem c4).mpr h4) ((isHexDigit_iff_mem c5).mpr h5)
      ((isHexDigit_iff_mem c6).mpr h6)
    have e1 := isBadNum_natCast _ (parseInt16_pair_le c1 h1 c2 h2)
    have e2 := isBadNum_natCast _ (parseInt16_pair_le c3 h3 c4 h4)
    have e3 := isBadNum_natCast _ (parseInt16_pair_le c5 h5 c6 h6)
    simp [constructRGB, firstIsHash_cons, hp, e1, e2, e3, hone, Except.map,
      ColourRGB.toString, jsEq, padHex_pair c1 h1 c2 h2, padHex_pair c3 h3 c4 h4,
      padHex_pair c5 h5 c6 h6]

/-- C3 witness: `#F00` round-trips to `#ff0000` and `#00ff00` round-trips
to itself. -/
theorem claim3_witness :
    (constructRGB [.str ⟨['#', 'F', '0', '0']⟩]).map ColourRGB.toString =
      .ok ("#" ++ lowerPair 'F' ++ lowerPair '0' ++ lowerPair '0') ∧
    (constructRGB [.str ⟨['#', '0', '0', 'f', 'f', '0', '0']⟩]).map ColourRGB.toString =
      .ok ("#" ++ lowerTwo '0' '0' ++ lowerTwo 'f' 'f' ++ lowerTwo '0' '0') :=
  ⟨claim3_hex_roundtrip.1 'F' (by decide) '0' (by decide) '0' (by decide),
   claim3_hex_roundtrip.2.1 '0' (by decide) '0' (by decide) 'f' (by decide)
     'f' (by decide) '0' (by decide) '0' (by decide)⟩

/-- C4: the hex parser tries the 3-digit pattern first — each captured
digit is duplicated and the pair read base-16, so each channel is 17 times
the digit value — and then the 6-digit pattern, reading each captured pair
base-16 directly; alpha is 1 in both cases. -/
theorem claim4_parser_patterns (c1 c2 c3 c4 c5 c6 : Char)
    (h1 : isHexDigit c1 = true) (h2 : isHexDigit c2 = true) (h3 : isHexDigit c3 = true)
    (h4 : isHexDigit c4 = true) (h5 : isHexDigit c5 = true) (h6 : isHexDigit c6 = true) :
    parseHexColour ⟨['#', c1, c2, c3]⟩ =
      .ok ⟨.num ((17 * hexDigitVal c1 : ℕ) : ℚ), .num ((17 * hexDigitVal c2 : ℕ) : ℚ),
           .num ((17 * hexDigitVal c3 : ℕ) : ℚ), .num 1⟩ ∧
    parseHexColour ⟨['#', c1, c2, c3, c4, c5, c6]⟩ =
      .ok ⟨.num ((16 * hexDigitVal c1 + hexDigitVal c2 : ℕ) : ℚ),
           .num ((16 * hexDigitVal c3 + hexDigitVal c4 : ℕ) : ℚ),
           .num ((16 * hexDigitVal c5 + hexDigitVal c6 : ℕ) : ℚ), .num 1⟩ := by
  have d : ∀ c : Char, parseInt16 ⟨[c, c]⟩ = 17 * hexDigitVal c := by
    intro c
    rw [parseInt16_two]
    ring
  constructor
  · rw [parseHexColour_three c1 c2 c3 h1 h2 h3, d c1, d c2, d c3]
  · rw [parseHexColour_six c1 c2 c3 c4 c5 c6 h1 h2 h3 h4 h5 h6,
      parseInt16_two c1 c2, parseInt16_two c3 c4, parseInt16_two c5 c6]

/-- C4 witness: the parser at the concrete digits `f00` and `f00aBc`. -/
theorem claim4_witness :
    parseHexColour ⟨['#', 'f', '0', '0']⟩ =
      .ok ⟨.num ((17 * hexDigitVal 'f' : ℕ) : ℚ), .num ((17 * hexDigitVal '0' : ℕ) : ℚ),
           .num ((17 * hexDigitVal '0' : ℕ) : ℚ), .num 1⟩ ∧
    parseHexColour ⟨['#', 'f', '0', '0', 'a', 'B', 'c']⟩ =
      .ok ⟨.num ((16 * hexDigitVal 'f' + hexDigitVal '0' : ℕ) : ℚ),
           .num ((16 * hexDigitVal '0' + hexDigitVal 'a' : ℕ) : ℚ),
           .num ((16 * hexDigitVal 'B' + hexDigitVal 'c' : ℕ) : ℚ), .num 1⟩ :=
  claim4_parser_patterns 'f' '0' '0' 'a' 'B' 'c' (by decide) (by decide) (by decide)
    (by decide) (by decide) (by decide)

/-- C6: every `ColourRGB` constructor call whose arguments are neither
exactly one hash-prefixed string nor of length 3 or 4 fails with the
invalid arguments error, and so does every 3- or 4-argument call — the
channels ranging over arbitrary values, numbers or not — on which the
`isBadNum` validation (255 for r, g, b; 1 for the defaulted alpha, as the
code applies it after the `a || 1` default) reports a violation, the
"not a number type" disjunct included. -/
theorem claim6_invalid_arguments (args : List JSVal) (r g b a : JSVal) :
    ((∀ s : String, args = [JSVal.str s] → firstIsHash s = false) →
      args.length ≠ 3 → args.length ≠ 4 →
      constructRGB args = .error .invalidColourArguments) ∧
    ((isBadNum r 255 || isBadNum g 255 || isBadNum b 255) = true →
      constructRGB [r, g, b] = .error .invalidColourArguments) ∧
    ((isBadNum r 255 || isBadNum g 255 || isBadNum b 255 ||
        isBadNum (jsOr a (.num (.num 1))) 1) = true →
      constructRGB [r, g, b, a] = .error .invalidColourArguments) := by
  refine ⟨?_, ?_, ?_⟩
  · intro hstr h3 h4
    rcases args with _ | ⟨x, _ | ⟨y, _ | ⟨z, _ | ⟨w, _ | ⟨v, rest⟩⟩⟩⟩⟩
    · rfl
    · cases x with
      | str s => simp [constructRGB, hstr s rfl]
      | num n => rfl
      | undef => rfl
    · cases x <;> rfl
    · exact absurd rfl h3
    · exact absurd rfl h4
    · cases x <;> rfl
  · intro hbad
    simp only [Bool.or_eq_true] at hbad
    rcases hbad with (h | h) | h <;> simp [constructRGB, h]
  · intro hbad
    simp only [Bool.or_eq_true] at hbad
    rcases hbad with ((h | h) | h) | h <;> simp [constructRGB, h]

/-- C6 witness: the empty argument list, `RGBColour(256, 0, 0)` and the
non-number channel call `RGBColour('a', 0, 0)` all fail with the invalid
arguments error. -/
theorem claim6_witness :
    constructRGB [] = .error .invalidColourArguments ∧
    constructRGB [.num (.num 256), .num (.num 0), .num (.num 0)] =
      .error .invalidColourArguments ∧
    constructRGB [.str "a", .num (.num 0), .num (.num 0)] =
      .error .invalidColourArguments :=
  ⟨(claim6_invalid_arguments [] (.num (.num 0)) (.num (.num 0)) (.num (.num 0))
      (.num (.num 0))).1 (fun s hs => by simp at hs) (by decide) (by decide),
   (claim6_invalid_arguments [] (.num (.num 256)) (.num (.num 0)) (.num (.num 0))
      (.num (.num 0))).2.1 (by decide),
   (claim6_invalid_arguments [] (.str "a") (.num (.num 0)) (.num (.num 0))
      (.num (.num 0))).2.1 (by decide)⟩

/-- C7: on an instance with integer channels in [0,255] — the data model's
invariant — `toString` yields the hash-prefixed, zero-padded, lowercase
6-digit hex string when the alpha is 1 and the `rgba` string with decimal
channels and the alpha rendered as is when it is not; in particular
`RGBColour(255,0,0,0.5).toString()` is `rgba(255, 0, 0, 0.5)`. -/
theorem claim7_toString (r g b : ℕ) (hr : r ≤ 255) (hg : g ≤ 255) (hb : b ≤ 255)
    (a : ℚ) :
    (a = 1 → ColourRGB.toString ⟨.num (r : ℚ), .num (g : ℚ), .num (b : ℚ), .num a⟩ =
      "#" ++ hex2 r ++ hex2 g ++ hex2 b) ∧
    (a ≠ 1 → ColourRGB.toString ⟨.num (r : ℚ), .num (g : ℚ), .num (b : ℚ), .num a⟩ =
      "rgba(" ++ Nat.repr r ++ ", " ++ Nat.repr g ++ ", " ++ Nat.repr b ++ ", " ++
        numToString (.num a) ++ ")") ∧
    (constructRGB [.num (.num 255), .num (.num 0), .num (.num 0),
        .num (.num (mkRat 1 2))]).map ColourRGB.toString =
      .ok "rgba(255, 0, 0, 0.5)" := by
  refine ⟨?_, ?_, by decide⟩
  · intro ha1
    subst ha1
    simp [ColourRGB.toString, jsEq, padHex_natCast r (by omega),
      padHex_natCast g (by omega), padHex_natCast b (by omega)]
  · intro ha1
    simp [ColourRGB.toString, jsEq, ha1, numToString_natCast]

/-- C7 witness: the instance with channels 255, 0, 0 and alpha one half
prints the `rgba` form. -/
theorem claim7_witness :
    ColourRGB.toString ⟨.num ((255 : ℕ) : ℚ), .num ((0 : ℕ) : ℚ), .num ((0 : ℕ) : ℚ),
        .num (mkRat 1 2)⟩ = "rgba(255, 0, 0, 0.5)" :=
  ((claim7_toString 255 0 0 (by decide) (by decide) (by decide) (mkRat 1 2)).2.1
    (by decide)).trans (by decide)

end Colour
